import Mathlib

/-!
Shallow embedding of the poster editor.  The drag controller comes from the
PosterCanvas component (handlePointerDown, handlePointerMove, handlePointerUp,
handleGlobalUp) and the host state owner from the App component
(INITIAL_STATE, updateElement, handlePositionUpdate).

Numbers are modelled by JSNum: finite JavaScript numbers are exact rationals,
and the non-finite values positive infinity, negative infinity and NaN are
kept so that the semantics of division by zero is preserved.  JavaScript
objects with possibly missing fields are modelled as structures of Option
fields (a missing field, that is undefined, is none, and coerces to NaN in
arithmetic).  The elements record of the poster state is an association list
with the JavaScript computed-key spread update semantics: replace in place
when the key exists, append at the end otherwise.
-/

/-- JavaScript number: an exact rational when finite, or one of the
non-finite values produced for instance by division by zero. -/
inductive JSNum where
  | num (q : ℚ)
  | posInf
  | negInf
  | nan
deriving DecidableEq

/-- JavaScript addition on the modelled values. -/
def JSNum.add : JSNum → JSNum → JSNum
  | nan, _ => nan
  | _, nan => nan
  | num a, num b => num (a + b)
  | posInf, negInf => nan
  | negInf, posInf => nan
  | posInf, _ => posInf
  | _, posInf => posInf
  | negInf, _ => negInf
  | _, negInf => negInf

/-- JavaScript subtraction on the modelled values. -/
def JSNum.sub : JSNum → JSNum → JSNum
  | nan, _ => nan
  | _, nan => nan
  | num a, num b => num (a - b)
  | posInf, posInf => nan
  | negInf, negInf => nan
  | posInf, _ => posInf
  | _, posInf => negInf
  | negInf, _ => negInf
  | _, negInf => posInf

/-- JavaScript division on the modelled values: a nonzero finite value
divided by zero gives a signed infinity, and zero divided by zero gives
NaN, exactly as in IEEE arithmetic. -/
def JSNum.div : JSNum → JSNum → JSNum
  | nan, _ => nan
  | _, nan => nan
  | num a, num b =>
      if b = 0 then
        if a > 0 then posInf else if a < 0 then negInf else nan
      else num (a / b)
  | posInf, num b => if b < 0 then negInf else posInf
  | negInf, num b => if b < 0 then posInf else negInf
  | num _, posInf => num 0
  | num _, negInf => num 0
  | posInf, posInf => nan
  | posInf, negInf => nan
  | negInf, posInf => nan
  | negInf, negInf => nan

/-- Whether a JavaScript number is finite. -/
def JSNum.isFinite : JSNum → Bool
  | num _ => true
  | _ => false

/-- Reading a possibly missing (undefined) numeric field for use in
arithmetic: undefined coerces to NaN under the arithmetic operators. -/
def jsVal (o : Option JSNum) : JSNum := o.getD .nan

/-- A text element of the poster (the TextElement record of types.ts).  All
fields are Option so that the partial objects produced by the object spread
in updateElement are representable; in a fully formed element every field
except width is present. -/
structure TextElement where
  id : Option String := none
  label : Option String := none
  text : Option String := none
  x : Option JSNum := none
  y : Option JSNum := none
  fontSize : Option ℚ := none
  fontFamily : Option String := none
  color : Option String := none
  width : Option ℚ := none
deriving DecidableEq

/-- The poster state of the App component: a background reference and the
record of named text elements, as an association list in insertion order. -/
structure PosterState where
  backgroundImage : Option String
  elements : List (String × TextElement)
deriving DecidableEq

/-- JavaScript object field read by key: the value at the first matching key,
none (undefined) when the key is absent. -/
def objGet (l : List (String × TextElement)) (k : String) : Option TextElement :=
  match l with
  | [] => none
  | (k1, v1) :: t => if k1 == k then some v1 else objGet t k

/-- JavaScript computed-key update of an object, the semantics of the spread
expression in updateElement: when the key exists its value is replaced in
place, otherwise a new entry is appended at the end. -/
def objSet (l : List (String × TextElement)) (k : String) (v : TextElement) :
    List (String × TextElement) :=
  match l with
  | [] => [(k, v)]
  | (k1, v1) :: t => if k1 == k then (k, v) :: t else (k1, v1) :: objSet t k v

/-- Field-wise choice used by the object spread: the second (later) object
wins on every field it defines. -/
def pickField {α : Type} : Option α → Option α → Option α
  | some v, _ => some v
  | none, a => a

/-- The object spread of two elements, the later object b overriding the
fields it defines. -/
def spreadMerge (a b : TextElement) : TextElement where
  id := pickField b.id a.id
  label := pickField b.label a.label
  text := pickField b.text a.text
  x := pickField b.x a.x
  y := pickField b.y a.y
  fontSize := pickField b.fontSize a.fontSize
  fontFamily := pickField b.fontFamily a.fontFamily
  color := pickField b.color a.color
  width := pickField b.width a.width

/-- updateElement of the App component: merge the updates into the element
stored under id (the spread of an undefined element contributes nothing) and
write the result back under the computed key id. -/
def updateElement (id : String) (updates : TextElement) (s : PosterState) : PosterState :=
  { s with elements := objSet s.elements id (spreadMerge ((objGet s.elements id).getD {}) updates) }

/-- handlePositionUpdate of the App component. -/
def handlePositionUpdate (id : String) (x y : JSNum) (s : PosterState) : PosterState :=
  updateElement id { x := some x, y := some y } s

/-- The date element of INITIAL_STATE. -/
def dateElement : TextElement where
  id := some "date"
  label := some "التاريخ"
  text := some "الخميس 07 أوت 2025"
  x := some (.num 400)
  y := some (.num 120)
  fontSize := some 48
  fontFamily := some "Cairo"
  color := some "#004d40"

/-- The honorific element of INITIAL_STATE. -/
def honorificElement : TextElement where
  id := some "honorific"
  label := some "اللقب العلمي"
  text := some "الدكتور"
  x := some (.num 550)
  y := some (.num 220)
  fontSize := some 36
  fontFamily := some "Amiri"
  color := some "#004d40"

/-- The name element of INITIAL_STATE. -/
def nameElement : TextElement where
  id := some "name"
  label := some "اسم المحاضر"
  text := some "عبد الرحمان بن إبراهيم نجار"
  x := some (.num 400)
  y := some (.num 270)
  fontSize := some 60
  fontFamily := some "Amiri"
  color := some "#1a1a1a"

/-- The title element of INITIAL_STATE. -/
def titleElement : TextElement where
  id := some "title"
  label := some "عنوان المحاضرة"
  text := some "من التماسك الاجتماعي إلى التقدم الحضاري\nقراءة في مفهوم رأس المال الاجتماعي"
  x := some (.num 165)
  y := some (.num 400)
  fontSize := some 72
  fontFamily := some "Lalezar"
  color := some "#b71c1c"
  width := some 950

/-- INITIAL_STATE of the App component: no background and the four named
elements. -/
def INITIAL_STATE : PosterState where
  backgroundImage := none
  elements :=
    [("date", dateElement), ("honorific", honorificElement),
     ("name", nameElement), ("title", titleElement)]

/-- The drag controller state of the PosterCanvas component: the isDragging
flag, the dragOffset anchor (device coordinates), and the dragged element
identifier. -/
structure DragState where
  isDragging : Bool
  dragOffset : ℚ × ℚ
  draggedId : Option String
deriving DecidableEq

/-- The bounding box returned by getBoundingClientRect on the rendering
surface; only the width is read by the controller. -/
structure Rect where
  width : ℚ
  height : ℚ
deriving DecidableEq

/-- Result of handlePointerDown: the identifier passed to onSelect and the
new controller state. -/
structure DownResult where
  selected : String
  state : DragState
deriving DecidableEq

/-- Result of handlePointerMove: the position update passed to
onUpdatePosition if any, the new controller state, and whether the handler
aborted with a thrown TypeError (reading a field of undefined). -/
structure MoveResult where
  update : Option (String × JSNum × JSNum)
  state : DragState
  errored : Bool
deriving DecidableEq

/-- handlePointerDown of the PosterCanvas component: select the element,
record it as dragged, set the dragging flag, record the pointer device
coordinates as the anchor.  The previous controller state is entirely
overwritten. -/
def handlePointerDown (elementId : String) (clientX clientY : ℚ)
    (_st : DragState) : DownResult where
  selected := elementId
  state := { isDragging := true, dragOffset := (clientX, clientY), draggedId := some elementId }

/-- handlePointerMove of the PosterCanvas component.  The guard returns
early when no drag is active, the dragged identifier is falsy, or the
container reference is unset.  Otherwise the scale is the rendered width
over 1280, the device delta from the anchor is divided by the scale, the
update request carries the stored position plus the logical delta, and the
anchor is reset to the current pointer position.  When the dragged
identifier is not a key of the elements record, the field read on undefined
throws before any update or state write. -/
def handlePointerMove (data : PosterState) (st : DragState) (container : Option Rect)
    (clientX clientY : ℚ) : MoveResult :=
  match st.isDragging, st.draggedId, container with
  | true, some draggedId, some rect =>
    if draggedId == "" then ⟨none, st, false⟩
    else
      let scale := JSNum.div (.num rect.width) (.num 1280)
      let deltaX := JSNum.div (.num (clientX - st.dragOffset.1)) scale
      let deltaY := JSNum.div (.num (clientY - st.dragOffset.2)) scale
      match objGet data.elements draggedId with
      | none => ⟨none, st, true⟩
      | some currentEl =>
        ⟨some (draggedId, JSNum.add (jsVal currentEl.x) deltaX,
               JSNum.add (jsVal currentEl.y) deltaY),
         { st with dragOffset := (clientX, clientY) }, false⟩
  | _, _, _ => ⟨none, st, false⟩

/-- handlePointerUp of the PosterCanvas component: clear the dragging flag
and the dragged identifier. -/
def handlePointerUp (st : DragState) : DragState :=
  { st with isDragging := false, draggedId := none }

/-- handleGlobalUp, the document-level fallback listener: same clearing,
guarded by the dragging flag. -/
def handleGlobalUp (st : DragState) : DragState :=
  if st.isDragging then { st with isDragging := false, draggedId := none } else st

/-- The host state visible to the controller through its callbacks: the
selected element identifier and the poster data. -/
structure AppState where
  selectedId : Option String
  data : PosterState
deriving DecidableEq

/-- A pointer-down at the application level: the controller runs
handlePointerDown, and its onSelect callback is setSelectedId. -/
def appPointerDown (app : AppState) (st : DragState) (elementId : String)
    (clientX clientY : ℚ) : AppState × DragState :=
  let r := handlePointerDown elementId clientX clientY st
  ({ app with selectedId := some r.selected }, r.state)

/-- A pointer-move at the application level: the controller runs
handlePointerMove, and its onUpdatePosition callback is
handlePositionUpdate. -/
def appPointerMove (app : AppState) (st : DragState) (container : Option Rect)
    (clientX clientY : ℚ) : AppState × DragState :=
  let r := handlePointerMove app.data st container clientX clientY
  match r.update with
  | some (i, xx, yy) => ({ app with data := handlePositionUpdate i xx yy app.data }, r.state)
  | none => (app, r.state)

/-- A pointer-up on the element at the application level: only the
controller state changes. -/
def appPointerUp (app : AppState) (st : DragState) : AppState × DragState :=
  (app, handlePointerUp st)

/-- A document-level pointer-up at the application level: only the
controller state changes. -/
def appGlobalUp (app : AppState) (st : DragState) : AppState × DragState :=
  (app, handleGlobalUp st)

/-- A whole gesture tail: a sequence of pointer-move events at the
application level, with a constant rendering surface bounding box. -/
def gestureMoves (rect : Rect) (p : AppState × DragState) (ps : List (ℚ × ℚ)) :
    AppState × DragState :=
  ps.foldl (fun q c => appPointerMove q.1 q.2 (some rect) c.1 c.2) p

/-- A sequence of updateElement calls issued by the owning application. -/
def applyUpdates (s : PosterState) (ops : List (String × TextElement)) : PosterState :=
  ops.foldl (fun t op => updateElement op.1 op.2 t) s

/-- The stored x coordinate of an element, when the element exists and the
field is present. -/
def getX (s : PosterState) (id : String) : Option JSNum :=
  (objGet s.elements id).bind fun el => el.x

/-- The stored y coordinate of an element, when the element exists and the
field is present. -/
def getY (s : PosterState) (id : String) : Option JSNum :=
  (objGet s.elements id).bind fun el => el.y

/-- The keys of the elements record, in insertion order. -/
def keys (s : PosterState) : List String := s.elements.map fun p => p.1

/-! ## Association list lemmas -/

theorem objGet_objSet_self (l : List (String × TextElement)) (k : String) (v : TextElement) :
    objGet (objSet l k v) k = some v := by
  induction l with
  | nil => simp [objSet, objGet]
  | cons a t ih =>
    obtain ⟨k1, v1⟩ := a
    by_cases h : k1 = k
    · subst h
      simp [objSet, objGet]
    · simp [objSet, objGet, h, ih]

theorem objGet_objSet_ne (l : List (String × TextElement)) (k : String) (v : TextElement)
    (k2 : String) (h : k2 ≠ k) : objGet (objSet l k v) k2 = objGet l k2 := by
  induction l with
  | nil => simp [objSet, objGet, Ne.symm h]
  | cons a t ih =>
    obtain ⟨k1, v1⟩ := a
    by_cases hk : k1 = k
    · subst hk
      simp [objSet, objGet, Ne.symm h]
    · simp [objSet, objGet, hk, ih]

theorem keys_objSet_mem (l : List (String × TextElement)) (k : String) (v : TextElement)
    (h : k ∈ l.map fun p => p.1) :
    (objSet l k v).map (fun p => p.1) = l.map fun p => p.1 := by
  induction l with
  | nil => simp at h
  | cons a t ih =>
    obtain ⟨k1, v1⟩ := a
    by_cases hk : k1 = k
    · subst hk
      simp [objSet]
    · have hmem : k ∈ t.map fun p => p.1 := by
        simp only [List.map_cons, List.mem_cons] at h
        rcases h with h | h
        · exact absurd h.symm hk
        · exact h
      simp [objSet, hk, ih hmem]

theorem keys_updateElement_mem (s : PosterState) (id : String) (u : TextElement)
    (h : id ∈ keys s) : keys (updateElement id u s) = keys s :=
  keys_objSet_mem s.elements id _ h

/-! ## Reduction lemmas for the move handler -/

theorem move_emit (data : PosterState) (st : DragState) (rect : Rect)
    (id : String) (el : TextElement) (cx cy : ℚ)
    (hdrag : st.isDragging = true) (hid : st.draggedId = some id) (hne : id ≠ "")
    (hel : objGet data.elements id = some el) :
    handlePointerMove data st (some rect) cx cy =
      ⟨some (id,
         JSNum.add (jsVal el.x)
           (JSNum.div (.num (cx - st.dragOffset.1)) (JSNum.div (.num rect.width) (.num 1280))),
         JSNum.add (jsVal el.y)
           (JSNum.div (.num (cy - st.dragOffset.2)) (JSNum.div (.num rect.width) (.num 1280)))),
       { st with dragOffset := (cx, cy) }, false⟩ := by
  obtain ⟨d, off, did⟩ := st
  dsimp only at hdrag hid ⊢
  subst hdrag
  subst hid
  simp [handlePointerMove, hne, hel]

theorem div_num_num (a b : ℚ) (h : b ≠ 0) : JSNum.div (.num a) (.num b) = .num (a / b) := by
  simp [JSNum.div, h]

theorem handlePointerMove_formula (data : PosterState) (st : DragState) (rect : Rect)
    (id : String) (el : TextElement) (x0 y0 cx cy : ℚ)
    (hdrag : st.isDragging = true) (hid : st.draggedId = some id) (hne : id ≠ "")
    (hw : rect.width ≠ 0) (hel : objGet data.elements id = some el)
    (hx : el.x = some (.num x0)) (hy : el.y = some (.num y0)) :
    handlePointerMove data st (some rect) cx cy =
      ⟨some (id, .num (x0 + (cx - st.dragOffset.1) / (rect.width / 1280)),
             .num (y0 + (cy - st.dragOffset.2) / (rect.width / 1280))),
       { st with dragOffset := (cx, cy) }, false⟩ := by
  have h1280 : (1280 : ℚ) ≠ 0 := by norm_num
  have hs : rect.width / 1280 ≠ 0 := div_ne_zero hw h1280
  rw [move_emit data st rect id el cx cy hdrag hid hne hel, hx, hy,
    div_num_num rect.width 1280 h1280, div_num_num _ _ hs, div_num_num _ _ hs]
  simp [jsVal, JSNum.add]

/-! ## Non-finiteness lemmas for division by a zero width -/

theorem div_by_zero_not_finite (d : ℚ) : (JSNum.div (.num d) (.num 0)).isFinite = false := by
  rcases lt_trichotomy d 0 with h | h | h
  · have h1 : ¬d > 0 := not_lt.mpr h.le
    simp [JSNum.div, h, h1, JSNum.isFinite]
  · subst h
    simp [JSNum.div, JSNum.isFinite]
  · simp [JSNum.div, h, JSNum.isFinite]

theorem add_num_not_finite (a : ℚ) (b : JSNum) (h : b.isFinite = false) :
    (JSNum.add (.num a) b).isFinite = false := by
  cases b <;> simp_all [JSNum.add, JSNum.isFinite]

/-! ## Position read-back after an update -/

theorem getX_handlePositionUpdate_self (s : PosterState) (id : String) (X Y : JSNum) :
    getX (handlePositionUpdate id X Y s) id = some X := by
  simp [getX, handlePositionUpdate, updateElement, objGet_objSet_self, spreadMerge, pickField]

theorem getY_handlePositionUpdate_self (s : PosterState) (id : String) (X Y : JSNum) :
    getY (handlePositionUpdate id X Y s) id = some Y := by
  simp [getY, handlePositionUpdate, updateElement, objGet_objSet_self, spreadMerge, pickField]

/-! ## One application-level move step -/

theorem appPointerMove_step (app : AppState) (st : DragState) (rect : Rect)
    (id : String) (x0 y0 cx cy : ℚ)
    (hdrag : st.isDragging = true) (hid : st.draggedId = some id) (hne : id ≠ "")
    (hw : rect.width ≠ 0)
    (hx : getX app.data id = some (.num x0)) (hy : getY app.data id = some (.num y0)) :
    getX (appPointerMove app st (some rect) cx cy).1.data id
        = some (.num (x0 + (cx - st.dragOffset.1) / (rect.width / 1280))) ∧
    getY (appPointerMove app st (some rect) cx cy).1.data id
        = some (.num (y0 + (cy - st.dragOffset.2) / (rect.width / 1280))) ∧
    (appPointerMove app st (some rect) cx cy).2 = { st with dragOffset := (cx, cy) } := by
  obtain ⟨el, hel, hxel⟩ : ∃ el, objGet app.data.elements id = some el ∧ el.x = some (.num x0) := by
    simpa [getX, Option.bind_eq_some] using hx
  have hyel : el.y = some (.num y0) := by
    simpa [getY, hel] using hy
  have hm := handlePointerMove_formula app.data st rect id el x0 y0 cx cy
    hdrag hid hne hw hel hxel hyel
  simp only [appPointerMove, hm]
  exact ⟨getX_handlePositionUpdate_self app.data id _ _,
    getY_handlePositionUpdate_self app.data id _ _, trivial⟩

/-! ## Default-valued last element of a list -/

theorem getLastD_cons_pair (c d : ℚ × ℚ) (l : List (ℚ × ℚ)) :
    (c :: l).getLastD d = l.getLastD c := by
  cases l <;> simp [List.getLastD]

theorem getLastD_eq_getLast_pair (l : List (ℚ × ℚ)) (d : ℚ × ℚ) (h : l ≠ []) :
    l.getLastD d = l.getLast h := by
  induction l generalizing d with
  | nil => exact absurd rfl h
  | cons c t ih =>
    cases t with
    | nil => rfl
    | cons b u =>
      rw [getLastD_cons_pair, ih c (by simp)]
      exact (List.getLast_cons (by simp)).symm

/-! ## A whole gesture tail of moves, telescoped -/

theorem gestureMoves_cons (rect : Rect) (p : AppState × DragState) (c : ℚ × ℚ)
    (ps : List (ℚ × ℚ)) :
    gestureMoves rect p (c :: ps)
      = gestureMoves rect (appPointerMove p.1 p.2 (some rect) c.1 c.2) ps := rfl

theorem gestureMoves_formula (rect : Rect) (id : String)
    (hw : rect.width ≠ 0) (hne : id ≠ "") :
    ∀ (ps : List (ℚ × ℚ)) (app : AppState) (st : DragState) (x0 y0 : ℚ),
      st.isDragging = true → st.draggedId = some id →
      getX app.data id = some (.num x0) → getY app.data id = some (.num y0) →
      getX (gestureMoves rect (app, st) ps).1.data id
          = some (.num (x0 + ((ps.getLastD st.dragOffset).1 - st.dragOffset.1)
              / (rect.width / 1280))) ∧
      getY (gestureMoves rect (app, st) ps).1.data id
          = some (.num (y0 + ((ps.getLastD st.dragOffset).2 - st.dragOffset.2)
              / (rect.width / 1280))) := by
  intro ps
  induction ps with
  | nil =>
    intro app st x0 y0 _ _ h3 h4
    constructor
    · simpa [gestureMoves, List.getLastD] using h3
    · simpa [gestureMoves, List.getLastD] using h4
  | cons c rest ih =>
    intro app st x0 y0 h1 h2 h3 h4
    have step := appPointerMove_step app st rect id x0 y0 c.1 c.2 h1 h2 hne hw h3 h4
    have hdrag2 : (appPointerMove app st (some rect) c.1 c.2).2.isDragging = true := by
      rw [step.2.2]
      exact h1
    have hid2 : (appPointerMove app st (some rect) c.1 c.2).2.draggedId = some id := by
      rw [step.2.2]
      exact h2
    have hoff : (appPointerMove app st (some rect) c.1 c.2).2.dragOffset = c := by
      rw [step.2.2]
    have final := ih (appPointerMove app st (some rect) c.1 c.2).1
      (appPointerMove app st (some rect) c.1 c.2).2
      (x0 + (c.1 - st.dragOffset.1) / (rect.width / 1280))
      (y0 + (c.2 - st.dragOffset.2) / (rect.width / 1280))
      hdrag2 hid2 step.1 step.2.1
    rw [hoff] at final
    have harith : ∀ u v w L : ℚ,
        u + (v - w) / (rect.width / 1280) + (L - v) / (rect.width / 1280)
          = u + (L - w) / (rect.width / 1280) := by
      intro u v w L
      ring
    rw [gestureMoves_cons, getLastD_cons_pair]
    constructor
    · rw [final.1, harith]
    · rw [final.2, harith]

/-! ## Claims -/

/-- C1: while a drag is active and the rendering surface is mounted, a
pointer-move computes scale as the rendered width over 1280, divides the
device delta from the anchor by the scale, requests an update to the stored
position plus the logical delta, and resets the anchor to the current
pointer position. -/
theorem pointer_move_scales_delta (data : PosterState) (st : DragState) (rect : Rect)
    (id : String) (el : TextElement) (x0 y0 cx cy : ℚ)
    (hdrag : st.isDragging = true) (hid : st.draggedId = some id) (hne : id ≠ "")
    (hw : rect.width ≠ 0) (hel : objGet data.elements id = some el)
    (hx : el.x = some (.num x0)) (hy : el.y = some (.num y0)) :
    handlePointerMove data st (some rect) cx cy =
      ⟨some (id, .num (x0 + (cx - st.dragOffset.1) / (rect.width / 1280)),
             .num (y0 + (cy - st.dragOffset.2) / (rect.width / 1280))),
       { st with dragOffset := (cx, cy) }, false⟩ :=
  handlePointerMove_formula data st rect id el x0 y0 cx cy hdrag hid hne hw hel hx hy

/-- Witness for C1, covering both scenarios of the claim: the date element
at (400, 120), anchor (100, 100), pointer moved to (110, 115); at scale 1
the requested position is (410, 135), at scale 0.5 it is (420, 150). -/
theorem pointer_move_scales_delta_witness :
    handlePointerMove INITIAL_STATE ⟨true, (100, 100), some "date"⟩ (some ⟨1280, 720⟩) 110 115
      = ⟨some ("date", .num 410, .num 135), ⟨true, (110, 115), some "date"⟩, false⟩ ∧
    handlePointerMove INITIAL_STATE ⟨true, (100, 100), some "date"⟩ (some ⟨640, 360⟩) 110 115
      = ⟨some ("date", .num 420, .num 150), ⟨true, (110, 115), some "date"⟩, false⟩ := by
  constructor
  · rw [pointer_move_scales_delta INITIAL_STATE ⟨true, (100, 100), some "date"⟩ ⟨1280, 720⟩
      "date" dateElement 400 120 110 115 rfl rfl (by decide) (by norm_num) rfl rfl rfl]
    norm_num
  · rw [pointer_move_scales_delta INITIAL_STATE ⟨true, (100, 100), some "date"⟩ ⟨640, 360⟩
      "date" dateElement 400 120 110 115 rfl rfl (by decide) (by norm_num) rfl rfl rfl]
    norm_num

/-- C2: with a constant positive scale across the gesture, a sequence of
incremental pointer-moves (each followed by the host applying the requested
update, the anchor being reset each time) ends with the same stored position
as a single move whose device delta is the total delta, that is a single
move to the last pointer position of the sequence. -/
theorem incremental_moves_compose (rect : Rect) (app : AppState) (st : DragState)
    (id : String) (x0 y0 lx ly : ℚ) (ps : List (ℚ × ℚ))
    (hw : 0 < rect.width)
    (hdrag : st.isDragging = true) (hid : st.draggedId = some id) (hne : id ≠ "")
    (hx : getX app.data id = some (.num x0)) (hy : getY app.data id = some (.num y0))
    (hps : ps ≠ []) (hlast : ps.getLast hps = (lx, ly)) :
    getX (gestureMoves rect (app, st) ps).1.data id
      = getX (appPointerMove app st (some rect) lx ly).1.data id ∧
    getY (gestureMoves rect (app, st) ps).1.data id
      = getY (appPointerMove app st (some rect) lx ly).1.data id := by
  have hw' : rect.width ≠ 0 := ne_of_gt hw
  have hfold := gestureMoves_formula rect id hw' hne ps app st x0 y0 hdrag hid hx hy
  have hstep := appPointerMove_step app st rect id x0 y0 lx ly hdrag hid hne hw' hx hy
  have hL : ps.getLastD st.dragOffset = (lx, ly) := by
    rw [getLastD_eq_getLast_pair ps st.dragOffset hps, hlast]
  rw [hL] at hfold
  exact ⟨by rw [hfold.1, hstep.1], by rw [hfold.2, hstep.2.1]⟩

/-- Witness for C2: two incremental moves from anchor (100, 100) through
(105, 105) to (110, 115) leave the date element where a single move to
(110, 115) leaves it. -/
theorem incremental_moves_compose_witness :
    getX (gestureMoves ⟨1280, 720⟩ (⟨some "date", INITIAL_STATE⟩, ⟨true, (100, 100), some "date"⟩)
        [(105, 105), (110, 115)]).1.data "date"
      = getX (appPointerMove ⟨some "date", INITIAL_STATE⟩ ⟨true, (100, 100), some "date"⟩
          (some ⟨1280, 720⟩) 110 115).1.data "date" ∧
    getY (gestureMoves ⟨1280, 720⟩ (⟨some "date", INITIAL_STATE⟩, ⟨true, (100, 100), some "date"⟩)
        [(105, 105), (110, 115)]).1.data "date"
      = getY (appPointerMove ⟨some "date", INITIAL_STATE⟩ ⟨true, (100, 100), some "date"⟩
          (some ⟨1280, 720⟩) 110 115).1.data "date" :=
  incremental_moves_compose ⟨1280, 720⟩ ⟨some "date", INITIAL_STATE⟩ ⟨true, (100, 100), some "date"⟩
    "date" 400 120 110 115 [(105, 105), (110, 115)] (by norm_num) rfl rfl (by decide)
    rfl rfl (by decide) rfl

/-- C3: a pointer-move received while no drag is active, or while the
dragged identifier is unset or names no element, or while the rendering
surface reference is unavailable, emits no position update and leaves the
controller state unchanged. -/
theorem guarded_move_is_noop (data : PosterState) (st : DragState) (container : Option Rect)
    (cx cy : ℚ)
    (h : st.isDragging = false ∨ st.draggedId = none ∨ st.draggedId = some "" ∨
         (∃ s, st.draggedId = some s ∧ objGet data.elements s = none) ∨ container = none) :
    (handlePointerMove data st container cx cy).update = none ∧
    (handlePointerMove data st container cx cy).state = st := by
  obtain ⟨d, off, did⟩ := st
  dsimp only at h ⊢
  rcases h with h | h | h | ⟨s, hs, hlook⟩ | h
  · subst h
    cases did <;> cases container <;> simp [handlePointerMove]
  · subst h
    cases d <;> cases container <;> simp [handlePointerMove]
  · subst h
    cases d <;> cases container <;> simp [handlePointerMove]
  · subst hs
    cases d
    · cases container <;> simp [handlePointerMove]
    · cases container with
      | none => simp [handlePointerMove]
      | some rect =>
        by_cases hse : s = ""
        · subst hse
          simp [handlePointerMove]
        · simp [handlePointerMove, hse, hlook]
  · subst h
    cases d <;> cases did <;> simp [handlePointerMove]

/-- Witness for C3: a pointer-move in the idle state is a no-op. -/
theorem guarded_move_is_noop_witness :
    (handlePointerMove INITIAL_STATE ⟨false, (0, 0), none⟩ (some ⟨1280, 720⟩) 50 60).update
      = none ∧
    (handlePointerMove INITIAL_STATE ⟨false, (0, 0), none⟩ (some ⟨1280, 720⟩) 50 60).state
      = ⟨false, (0, 0), none⟩ :=
  guarded_move_is_noop INITIAL_STATE ⟨false, (0, 0), none⟩ (some ⟨1280, 720⟩) 50 60 (Or.inl rfl)

/-- C4: while a drag is active, a pointer-up, whether delivered on the
element (handlePointerUp) or anywhere in the document (handleGlobalUp),
clears the dragging flag and the dragged identifier; neither handler reads
the pointer position. -/
theorem pointer_up_ends_drag (st : DragState) (h : st.isDragging = true) :
    (handlePointerUp st).isDragging = false ∧ (handlePointerUp st).draggedId = none ∧
    (handleGlobalUp st).isDragging = false ∧ (handleGlobalUp st).draggedId = none := by
  simp [handlePointerUp, handleGlobalUp, h]

/-- Witness for C4: ending an active drag of the name element. -/
theorem pointer_up_ends_drag_witness :
    (handlePointerUp ⟨true, (3, 4), some "name"⟩).isDragging = false ∧
    (handlePointerUp ⟨true, (3, 4), some "name"⟩).draggedId = none ∧
    (handleGlobalUp ⟨true, (3, 4), some "name"⟩).isDragging = false ∧
    (handleGlobalUp ⟨true, (3, 4), some "name"⟩).draggedId = none :=
  pointer_up_ends_drag ⟨true, (3, 4), some "name"⟩ rfl

/-- C5: a pointer-down on an element, even while another element is selected
or mid-drag, records that element as dragged, records the pointer device
coordinates as the anchor, immediately selects it in the host, leaves the
poster data untouched, and a subsequent move of the gesture emits its update
for that element, from the new anchor. -/
theorem pointer_down_starts_new_drag (app : AppState) (st : DragState) (B : String)
    (cx cy : ℚ) (rect : Rect) (el : TextElement) (x0 y0 cx2 cy2 : ℚ)
    (hne : B ≠ "") (hw : rect.width ≠ 0)
    (hel : objGet app.data.elements B = some el)
    (hx : el.x = some (.num x0)) (hy : el.y = some (.num y0)) :
    (appPointerDown app st B cx cy).1.selectedId = some B ∧
    (appPointerDown app st B cx cy).2.isDragging = true ∧
    (appPointerDown app st B cx cy).2.draggedId = some B ∧
    (appPointerDown app st B cx cy).2.dragOffset = (cx, cy) ∧
    (appPointerDown app st B cx cy).1.data = app.data ∧
    (handlePointerMove (appPointerDown app st B cx cy).1.data
        (appPointerDown app st B cx cy).2 (some rect) cx2 cy2).update
      = some (B, .num (x0 + (cx2 - cx) / (rect.width / 1280)),
                 .num (y0 + (cy2 - cy) / (rect.width / 1280))) := by
  refine ⟨rfl, rfl, rfl, rfl, rfl, ?_⟩
  have hm := handlePointerMove_formula app.data (⟨true, (cx, cy), some B⟩ : DragState) rect B el
    x0 y0 cx2 cy2 rfl rfl hne hw hel hx hy
  exact congrArg MoveResult.update hm

/-- Witness for C5: drag of the name element in progress, pointer-down on
the date element at (100, 100), then a move to (110, 115) at scale 1 updates
the date element to (410, 135). -/
theorem pointer_down_starts_new_drag_witness :
    (appPointerDown ⟨some "name", INITIAL_STATE⟩ ⟨true, (50, 50), some "name"⟩
        "date" 100 100).1.selectedId = some "date" ∧
    (appPointerDown ⟨some "name", INITIAL_STATE⟩ ⟨true, (50, 50), some "name"⟩
        "date" 100 100).2.isDragging = true ∧
    (appPointerDown ⟨some "name", INITIAL_STATE⟩ ⟨true, (50, 50), some "name"⟩
        "date" 100 100).2.draggedId = some "date" ∧
    (appPointerDown ⟨some "name", INITIAL_STATE⟩ ⟨true, (50, 50), some "name"⟩
        "date" 100 100).2.dragOffset = (100, 100) ∧
    (appPointerDown ⟨some "name", INITIAL_STATE⟩ ⟨true, (50, 50), some "name"⟩
        "date" 100 100).1.data = INITIAL_STATE ∧
    (handlePointerMove
        (appPointerDown ⟨some "name", INITIAL_STATE⟩ ⟨true, (50, 50), some "name"⟩
          "date" 100 100).1.data
        (appPointerDown ⟨some "name", INITIAL_STATE⟩ ⟨true, (50, 50), some "name"⟩
          "date" 100 100).2 (some ⟨1280, 720⟩) 110 115).update
      = some ("date", .num 410, .num 135) := by
  have h := pointer_down_starts_new_drag ⟨some "name", INITIAL_STATE⟩
    ⟨true, (50, 50), some "name"⟩ "date" 100 100 ⟨1280, 720⟩ dateElement 400 120 110 115
    (by decide) (by norm_num) rfl rfl rfl
  refine ⟨h.1, h.2.1, h.2.2.1, h.2.2.2.1, h.2.2.2.2.1, ?_⟩
  rw [h.2.2.2.2.2]
  norm_num

/-- C6: when a drag is active and the surface is mounted with rendered width
zero, a pointer-move is not skipped, does not throw, advances the anchor as
usual, and the emitted update carries non-finite coordinates: the division
by the zero scale is unguarded. -/
theorem zero_width_emits_nonfinite (data : PosterState) (st : DragState) (hgt : ℚ)
    (id : String) (el : TextElement) (x0 y0 cx cy : ℚ)
    (hdrag : st.isDragging = true) (hid : st.draggedId = some id) (hne : id ≠ "")
    (hel : objGet data.elements id = some el)
    (hx : el.x = some (.num x0)) (hy : el.y = some (.num y0)) :
    (handlePointerMove data st (some ⟨0, hgt⟩) cx cy).update.isSome = true ∧
    ((handlePointerMove data st (some ⟨0, hgt⟩) cx cy).update.getD ("", .nan, .nan)).1 = id ∧
    ((handlePointerMove data st (some ⟨0, hgt⟩) cx cy).update.getD
        ("", .nan, .nan)).2.1.isFinite = false ∧
    ((handlePointerMove data st (some ⟨0, hgt⟩) cx cy).update.getD
        ("", .nan, .nan)).2.2.isFinite = false ∧
    (handlePointerMove data st (some ⟨0, hgt⟩) cx cy).errored = false ∧
    (handlePointerMove data st (some ⟨0, hgt⟩) cx cy).state
      = { st with dragOffset := (cx, cy) } := by
  have hm := move_emit data st ⟨0, hgt⟩ id el cx cy hdrag hid hne hel
  rw [hx, hy] at hm
  have hscale : JSNum.div (.num ((⟨0, hgt⟩ : Rect).width)) (.num 1280) = .num 0 := by
    norm_num [JSNum.div]
  rw [hscale] at hm
  rw [hm]
  refine ⟨rfl, rfl, ?_, ?_, rfl, rfl⟩
  · exact add_num_not_finite x0 _ (div_by_zero_not_finite _)
  · exact add_num_not_finite y0 _ (div_by_zero_not_finite _)

/-- Witness for C6: dragging the date element with the surface rendered at
width zero, the move to (110, 115) emits an update with two non-finite
coordinates and still advances the anchor. -/
theorem zero_width_emits_nonfinite_witness :
    (handlePointerMove INITIAL_STATE ⟨true, (100, 100), some "date"⟩
        (some ⟨0, 0⟩) 110 115).update.isSome = true ∧
    ((handlePointerMove INITIAL_STATE ⟨true, (100, 100), some "date"⟩
        (some ⟨0, 0⟩) 110 115).update.getD ("", .nan, .nan)).1 = "date" ∧
    ((handlePointerMove INITIAL_STATE ⟨true, (100, 100), some "date"⟩
        (some ⟨0, 0⟩) 110 115).update.getD ("", .nan, .nan)).2.1.isFinite = false ∧
    ((handlePointerMove INITIAL_STATE ⟨true, (100, 100), some "date"⟩
        (some ⟨0, 0⟩) 110 115).update.getD ("", .nan, .nan)).2.2.isFinite = false ∧
    (handlePointerMove INITIAL_STATE ⟨true, (100, 100), some "date"⟩
        (some ⟨0, 0⟩) 110 115).errored = false ∧
    (handlePointerMove INITIAL_STATE ⟨true, (100, 100), some "date"⟩
        (some ⟨0, 0⟩) 110 115).state = ⟨true, (110, 115), some "date"⟩ :=
  zero_width_emits_nonfinite INITIAL_STATE ⟨true, (100, 100), some "date"⟩ 0 "date"
    dateElement 400 120 110 115 rfl rfl (by decide) rfl rfl rfl

/-- C7: the poster state starts with exactly the four named elements, and
any sequence of updateElement calls whose targets are existing keys, which
is the only way the owning application ever calls it in this scope, leaves
the key set unchanged: no element is added or removed, only field values
mutate. -/
theorem element_keys_fixed (ops : List (String × TextElement))
    (h : ∀ op ∈ ops, op.1 ∈ keys INITIAL_STATE) :
    keys INITIAL_STATE = ["date", "honorific", "name", "title"] ∧
    keys (applyUpdates INITIAL_STATE ops) = ["date", "honorific", "name", "title"] := by
  have gen : ∀ (l : List (String × TextElement)) (s : PosterState),
      (∀ op ∈ l, op.1 ∈ keys s) → keys (applyUpdates s l) = keys s := by
    intro l
    induction l with
    | nil =>
      intro s _
      rfl
    | cons op t ih =>
      intro s hs
      have h1 : op.1 ∈ keys s := hs op (by simp)
      have hk := keys_updateElement_mem s op.1 op.2 h1
      have h2 : ∀ q ∈ t, q.1 ∈ keys (updateElement op.1 op.2 s) := by
        intro q hq
        rw [hk]
        exact hs q (List.mem_cons_of_mem op hq)
      calc keys (applyUpdates s (op :: t))
          = keys (applyUpdates (updateElement op.1 op.2 s) t) := rfl
        _ = keys (updateElement op.1 op.2 s) := ih (updateElement op.1 op.2 s) h2
        _ = keys s := hk
  refine ⟨rfl, ?_⟩
  rw [gen ops INITIAL_STATE h]
  rfl

/-- Witness for C7: one in-scope update of the date element keeps the four
keys. -/
theorem element_keys_fixed_witness :
    keys INITIAL_STATE = ["date", "honorific", "name", "title"] ∧
    keys (applyUpdates INITIAL_STATE [("date", { x := some (.num 1) })])
      = ["date", "honorific", "name", "title"] :=
  element_keys_fixed [("date", { x := some (.num 1) })] (by decide)

/-- C8: a position update for an element changes only its x and y fields:
the background, every other element, and every other field of the updated
element are carried over unchanged.  The drag controller only requests this
update through its callback; it never writes the poster state itself. -/
theorem position_update_frame (s : PosterState) (id : String) (x y : JSNum) :
    (handlePositionUpdate id x y s).backgroundImage = s.backgroundImage ∧
    (∀ k, k ≠ id →
      objGet (handlePositionUpdate id x y s).elements k = objGet s.elements k) ∧
    objGet (handlePositionUpdate id x y s).elements id
      = some { (objGet s.elements id).getD {} with x := some x, y := some y } := by
  refine ⟨rfl, ?_, ?_⟩
  · intro k hk
    exact objGet_objSet_ne s.elements id _ k hk
  · exact objGet_objSet_self s.elements id _

/-- Witness for C8: updating the position of the date element leaves the
name element untouched. -/
theorem position_update_frame_witness :
    objGet (handlePositionUpdate "date" (.num 1) (.num 2) INITIAL_STATE).elements "name"
      = objGet INITIAL_STATE.elements "name" :=
  (position_update_frame INITIAL_STATE "date" (.num 1) (.num 2)).2.1 "name" (by decide)

/-- C9: ending a drag through either pointer-up handler changes nothing in
the host state: the selected identifier and the poster data are untouched,
and in the controller only the dragging flag and the dragged identifier are
cleared, the anchor being left as it was. -/
theorem pointer_up_preserves_selection (app : AppState) (st : DragState) :
    (appPointerUp app st).1 = app ∧
    (appPointerUp app st).2 = ⟨false, st.dragOffset, none⟩ ∧
    (appGlobalUp app st).1 = app ∧
    (st.isDragging = true → (appGlobalUp app st).2 = ⟨false, st.dragOffset, none⟩) := by
  refine ⟨rfl, rfl, rfl, fun h => ?_⟩
  simp [appGlobalUp, handleGlobalUp, h]

/-- Witness for C9: a document-level pointer-up while dragging the date
element clears only the controller flags. -/
theorem pointer_up_preserves_selection_witness :
    (appGlobalUp ⟨some "date", INITIAL_STATE⟩ ⟨true, (5, 6), some "date"⟩).2
      = ⟨false, (5, 6), none⟩ :=
  (pointer_up_preserves_selection ⟨some "date", INITIAL_STATE⟩
    ⟨true, (5, 6), some "date"⟩).2.2.2 rfl

/-- C10: calling updateElement with an id that is not one of the four keys
does not fail and does not leave the state unchanged: the spread of the
missing element contributes nothing, and a new entry holding exactly the
supplied fields is appended, so the element map gains a key. -/
theorem update_unknown_id_inserts :
    objGet INITIAL_STATE.elements "extra" = none ∧
    (updateElement "extra" { x := some (.num 5), y := some (.num 7) } INITIAL_STATE).elements
      = INITIAL_STATE.elements ++ [("extra", { x := some (.num 5), y := some (.num 7) })] ∧
    keys (updateElement "extra" { x := some (.num 5), y := some (.num 7) } INITIAL_STATE)
      = ["date", "honorific", "name", "title", "extra"] := by
  refine ⟨rfl, ?_, rfl⟩
  rfl
